import Mathlib

/-!
Verification of the Pre2Pub preprint-to-publication resolution algorithm
(`utils/search.py`, `utils/similarity.py`) against its specification.

The Python code is shallowly embedded: strings are `String`/`List Char`,
Python exceptions become `Option`/`Except`, similarity scores become exact
rationals (`ℚ`) for the orchestration logic and exact reals (`ℝ`) for the
cosine-similarity service, and every external network / model call is a
function parameter (oracle).
-/

namespace Pre2Pub

/-! ## Python string primitives

Character-list level models of the Python `str` operations used by the
repository: `str.replace` (non-overlapping, left-to-right), `str.split(sep)`
(keeps empty fields), `str.split()` (whitespace runs, drops empty fields),
`str.lower` (ASCII), `str.startswith`, substring containment (`in`), and
`int(...)` parsing. -/

/-- Recursion core of `replL`.  The fuel argument only makes the
recursion structural (each step both consumes one unit of fuel and
strictly shortens the list, so a starting fuel equal to the list length
never runs out); the exhausted-fuel row is unreachable. -/
def replFuel (p0 : Char) (ps rep : List Char) : Nat → List Char → List Char
  | _, [] => []
  | 0, l => l
  | fuel + 1, c :: rest =>
    if (p0 :: ps).isPrefixOf (c :: rest) then
      rep ++ replFuel p0 ps rep fuel (rest.drop ps.length)
    else
      c :: replFuel p0 ps rep fuel rest

/-- Model of Python `s.replace(pat, rep)` for a non-empty pattern
`p0 :: ps`: non-overlapping replacement, scanning left to right. -/
def replL (p0 : Char) (ps rep l : List Char) : List Char :=
  replFuel p0 ps rep l.length l

/-- Recursion core of `splitOnL`; fuel as in `replFuel`. -/
def splitFuel (p0 : Char) (ps : List Char) : Nat → List Char → List (List Char)
  | _, [] => [[]]
  | 0, l => [l]
  | fuel + 1, c :: rest =>
    if (p0 :: ps).isPrefixOf (c :: rest) then
      [] :: splitFuel p0 ps fuel (rest.drop ps.length)
    else
      match splitFuel p0 ps fuel rest with
      | [] => [[c]]
      | g :: gs => (c :: g) :: gs

/-- Model of Python `s.split(sep)` for a non-empty separator `p0 :: ps`:
splits at each non-overlapping occurrence, keeping empty fields
(`"".split(sep) == [\'\']`). -/
def splitOnL (p0 : Char) (ps l : List Char) : List (List Char) :=
  splitFuel p0 ps l.length l

/-- Model of Python `s.split()` (no separator): split on whitespace runs,
dropping empty fields.  `cur` is the reversed current word accumulator. -/
def wordsAux (cur : List Char) : List Char → List (List Char)
  | [] => if cur.isEmpty then [] else [cur.reverse]
  | c :: rest =>
    if c.isWhitespace then
      if cur.isEmpty then wordsAux [] rest else cur.reverse :: wordsAux [] rest
    else
      wordsAux (c :: cur) rest

/-- Python `s.split()`. -/
def wordsL (l : List Char) : List (List Char) := wordsAux [] l

/-- Substring containment: model of Python `pat in s`. -/
def containsSubL (pat : List Char) : List Char → Bool
  | [] => pat.isEmpty
  | c :: rest => pat.isPrefixOf (c :: rest) || containsSubL pat rest

/-- Model of Python `s.lower()` (ASCII case folding, which is all the
repository's inputs use). -/
def lowerL (l : List Char) : List Char := l.map Char.toLower

/-- Digits-only parse of a non-empty digit string. -/
def digitsToNatAux : List Char → Nat → Option Nat
  | [], acc => some acc
  | c :: cs, acc =>
    if c.isDigit then digitsToNatAux cs (acc * 10 + (c.toNat - 48)) else none

/-- All-digit non-empty list to `Nat`. -/
def digitsToNat : List Char → Option Nat
  | [] => none
  | l => digitsToNatAux l 0

/-- Model of Python `int(s)` on the inputs relevant here: optional
surrounding whitespace, an optional single sign, then a non-empty digit
run; anything else raises `ValueError` (modelled as `none`). -/
def pyIntL (l : List Char) : Option Int :=
  let t := ((l.dropWhile Char.isWhitespace).reverse.dropWhile Char.isWhitespace).reverse
  match t with
  | '+' :: rest => (digitsToNat rest).map Int.ofNat
  | '-' :: rest => (digitsToNat rest).map (fun n => -(n : Int))
  | _ => (digitsToNat t).map Int.ofNat

/-- Python `s.startswith(pre)`, i.e. `pre` is a prefix of `s`. -/
def startsW (s pre : String) : Bool := pre.toList.isPrefixOf s.toList

/-- Python `pat in s` on strings. -/
def containsStr (s pat : String) : Bool := containsSubL pat.toList s.toList

/-- Python `' '.join(ws)` at the character-list level. -/
def joinSp (ws : List (List Char)) : List Char := List.intercalate [' '] ws

/-- Python `s.split(sep)` at the string level (separator non-empty at every
call site in the repository). -/
def splitOnStr (sep s : String) : List String :=
  match sep.toList with
  | [] => [s]
  | c :: cs => (splitOnL c cs s.toList).map (fun l => String.mk l)

/-- Python `s.replace(pat, rep)` at the string level (pattern non-empty at
every call site in the repository). -/
def replStr (pat rep s : String) : String :=
  match pat.toList with
  | [] => s
  | c :: cs => String.mk (replL c cs rep.toList s.toList)

/-! ## `datetime.date` model (`convert_date`, `utils/search.py` lines 40-46)

Python's `datetime.date(y, m, d)` constructor validates
`MINYEAR (1) ≤ y ≤ MAXYEAR (9999)`, `1 ≤ m ≤ 12` and
`1 ≤ d ≤ days_in_month(y, m)`, raising `ValueError` otherwise; comparison
is lexicographic on (year, month, day). -/

/-- A validated Python `datetime.date` value. -/
structure PyDate where
  year : Int
  month : Int
  day : Int
deriving DecidableEq, Repr

/-- Gregorian leap-year rule used by `datetime`. -/
def isLeap (y : Int) : Bool := y % 4 == 0 && (y % 100 != 0 || y % 400 == 0)

/-- Days in a month, as in `datetime`. -/
def daysInMonth (y m : Int) : Int :=
  if m == 2 then (if isLeap y then 29 else 28)
  else if m == 4 || m == 6 || m == 9 || m == 11 then 30
  else 31

/-- `datetime.date(y, m, d)`: `some` on valid components, `none` models the
`ValueError` raised on invalid ones. -/
def mkDate (y m d : Int) : Option PyDate :=
  if 1 ≤ y ∧ y ≤ 9999 ∧ 1 ≤ m ∧ m ≤ 12 ∧ 1 ≤ d ∧ d ≤ daysInMonth y m then
    some ⟨y, m, d⟩
  else none

/-- The numeric literal `0.9` of the source (`author_threshold` and the
acceptance threshold), as the reduced rational 9/10 (a structure literal,
so that kernel evaluation of comparisons is possible). -/
def rat09 : ℚ := ⟨9, 10, by norm_num, by norm_num⟩

/-- The numeric literal `0.94` of the source (the title-check gate), as
the reduced rational 47/50. -/
def rat094 : ℚ := ⟨47, 50, by norm_num, by norm_num⟩

/-- The numeric literal `0.89` (the boundary score named by the spec), as
the reduced rational 89/100. -/
def rat089 : ℚ := ⟨89, 100, by norm_num, by norm_num⟩

/-- Python `date` strict comparison `a < b` (lexicographic). -/
def dateLt (a b : PyDate) : Bool :=
  a.year < b.year ||
    (a.year == b.year &&
      (a.month < b.month || (a.month == b.month && a.day < b.day)))

/-- `convert_date` (`utils/search.py` lines 40-46).  Python source:
if `"/" in date_` split the first ten characters on `"/"`, elif `"-" in
date_` split them on `"-"`, then build
`date(int(p[0]), int(p[1]), int(p[2]))`.  Every failure path — neither
delimiter present (`UnboundLocalError`), fewer than three components
(`IndexError`), non-numeric component or invalid calendar date
(`ValueError`) — raises, modelled as `none`. -/
def convert_date (s : String) : Option PyDate :=
  let l := s.toList
  let t := l.take 10
  let parts? : Option (List (List Char)) :=
    if l.contains '/' then some (splitOnL '/' [] t)
    else if l.contains '-' then some (splitOnL '-' [] t)
    else none
  match parts? with
  | none => none
  | some parts =>
    match parts[0]?, parts[1]?, parts[2]? with
    | some a, some b, some c =>
      match pyIntL a, pyIntL b, pyIntL c with
      | some y, some mo, some d => mkDate y mo d
      | _, _, _ => none
    | _, _, _ => none

/-! ## Author Matching Engine (`utils/similarity.py`, class `AuthorSimilarity`)

The class constant `AUTHOR_TYPE` is fixed to `'all'` in the source
(line 70), so the `'biorxiv'` branches of the two `__prepare_authors_*`
dispatchers are dead code; the embedding follows the active `'all'`
branches.  Helper names keep the source names (leading underscores
dropped). -/

namespace AuthorSimilarity

/-- `__to_lower_and_split_by_comma`: lower-case; if the string contains a
comma, split on `", "` (comma-space) and re-join with a single space.
Note the guard counts `','` but the split separator is `", "`, exactly as
in the source. -/
def to_lower_and_split_by_comma (s : String) : String :=
  let ap := lowerL s.toList
  let ap := if 1 ≤ ap.count ',' then List.intercalate [' '] (splitOnL ',' [' '] ap) else ap
  String.mk ap

/-- `__prepare_authors_pubmed` in the active `'all'` mode. -/
def prepare_authors_pubmed (s : String) : String := to_lower_and_split_by_comma s

/-- `_rearrange_surname_and_initials` with `surname_position = -1` (the
`'all'`-mode call site): split on single spaces (keeping empty fields),
take the last component as surname, delete it, build the initials-only
variant from the first characters of the remaining non-empty components,
and put the surname first in both results.  Returns
(rearranged component list, initials-only string). -/
def rearrange_surname_and_initials_last (s : List Char) : List (List Char) × List Char :=
  let authors := splitOnL ' ' [] s
  let surname := authors.getLastD []
  let authors := authors.dropLast
  let initials := (authors.filter (fun w => !w.isEmpty)).map (fun w => [w.headD ' '])
  (surname :: authors, List.intercalate [' '] (surname :: initials))

/-- `__prepare_authors_preprint_all`: lower-case, replace `". "` then `"."`
by a space, rearrange surname-last to surname-first.  Returns
(`apre`, `apre_initials_only`). -/
def prepare_authors_preprint_all (s : String) : String × String :=
  let ap := lowerL s.toList
  let ap := replL '.' [' '] [' '] ap
  let ap := replL '.' [] [' '] ap
  let (authors, initials) := rearrange_surname_and_initials_last ap
  (String.mk (List.intercalate [' '] authors), String.mk initials)

/-- The normalized preprint author name `apre`. -/
def apreOf (a : String) : String := (prepare_authors_preprint_all a).1

/-- The initials-only variant `apre_initials_only`. -/
def apreInitialsOf (a : String) : String := (prepare_authors_preprint_all a).2

/-- The normalized PubMed author name `apub`. -/
def apubOf (b : String) : String := prepare_authors_pubmed b

/-- `reversed_apre = ' '.join(reversed(apre.split()))`: whitespace-words of
`apre`, reversed, re-joined. -/
def reversedApreOf (a : String) : String :=
  String.mk (List.intercalate [' '] (wordsL (apreOf a).toList).reverse)

/-- Levenshtein edit distance with substitution cost 2 (as used by
`python-Levenshtein`'s `ratio`). -/
def dist2 : List Char → List Char → Nat
  | [], b => b.length
  | a :: as', [] => (a :: as').length
  | a :: as', b :: bs =>
    if a = b then dist2 as' bs
    else
      min (dist2 as' (b :: bs) + 1) (min (dist2 (a :: as') bs + 1) (dist2 as' bs + 2))
  termination_by a b => a.length + b.length
  decreasing_by all_goals simp only [List.length_cons]; omega

/-- `Levenshtein.ratio(a, b) = (|a| + |b| - dist2 a b) / (|a| + |b|)`,
with the convention `ratio('', '') = 1.0`. -/
def levRatio (a b : List Char) : ℚ :=
  let n := a.length + b.length
  if n = 0 then 1 else ((n : ℚ) - dist2 a b) / n

/-- `__calculate_levenstein_ratio`: the larger of the ratios of `apre` and
`reversed_apre` against `apub`. -/
def calculate_levenstein_ratio (apre apub rev : String) : ℚ :=
  max (levRatio apre.toList apub.toList) (levRatio rev.toList apub.toList)

/-- `_is_author_the_same` (lines 209-243): after normalizing both names,
five ordered prefix tests, then the Levenshtein-ratio threshold
(`author_threshold = 0.9`). -/
def is_author_the_same (a b : String) : Bool :=
  if startsW (apreOf a) (apubOf b) then true
  else if startsW (apubOf b) (apreOf a) then true
  else if startsW (apreInitialsOf a) (apubOf b) then true
  else if startsW (reversedApreOf a) (apubOf b) then true
  else if startsW (apubOf b) (reversedApreOf a) then true
  else decide (calculate_levenstein_ratio (apreOf a) (apubOf b) (reversedApreOf a) > rat09)

/-- `authors_consensus`: pairwise `zip` of the two lists under
`_is_author_the_same`. -/
def authors_consensus (pre pub : List String) : List Bool :=
  List.zipWith is_author_the_same pre pub

/-- `keep_first_and_last_author` (defined on non-empty lists; Python would
raise `IndexError` on `[]`, which no guarded call site reaches). -/
def keep_first_and_last_author (l : List String) : List String :=
  [l.headD "", l.getLastD ""]

/-- `consensus_first_and_last_authors`. -/
def consensus_first_and_last_authors (pre pub : List String) : List Bool :=
  authors_consensus (keep_first_and_last_author pre) (keep_first_and_last_author pub)

/-- `_is_consensus_majority`: strictly more `True` than `False` entries. -/
def is_consensus_majority (c : List Bool) : Bool :=
  decide (c.count true > c.count false)

/-- `_is_first_n_authors_the_same`: `all(consensus[:n])`. -/
def is_first_n_authors_the_same (c : List Bool) (n : Nat) : Bool :=
  (c.take n).all id

/-- `_is_first_and_last_author_the_same` (lines 158-163).  The Python body
is the chained comparison `True is consensus[0] == consensus[-1]`, which
desugars to `(True is consensus[0]) and (consensus[0] == consensus[-1])`
(defined on non-empty lists; Python raises `IndexError` on `[]`). -/
def is_first_and_last_author_the_same (c : List Bool) : Bool :=
  (true == c.headD false) && (c.headD false == c.getLastD false)

/-- `perform_checks` (lines 115-130): the four acceptance rules over the
pairwise consensus and the first/last-only consensus. -/
def perform_checks (pre pub : List String) : List Bool :=
  let c := authors_consensus pre pub
  let cfl := consensus_first_and_last_authors pre pub
  [is_consensus_majority c,
   is_first_n_authors_the_same c 3,
   is_first_and_last_author_the_same c,
   is_first_and_last_author_the_same cfl]

/-- `_is_author_in_list`. -/
def is_author_in_list (a : String) (pubs : List String) : Bool :=
  pubs.any (fun p => is_author_the_same a p)

/-- `_is_first_and_last_author_present_in_another_list` (defined on
non-empty `pre`, as at its guarded call sites). -/
def is_first_and_last_author_present (pre pubs : List String) : Bool :=
  is_author_in_list (pre.headD "") pubs && is_author_in_list (pre.getLastD "") pubs

/-- `_move_first_author_to_last_position` (pure version of the in-place
`pop(0)`/`insert(len, ·)` rotation; defined on non-empty lists). -/
def move_first_author_to_last : List String → List String
  | [] => []
  | x :: xs => xs ++ [x]

/-- `is_author_correct` (lines 81-113): empty-PubMed guard, split the
preprint author string on `"; "`, length-difference guard, then the four
consensus checks, the endpoint-presence check, and both again with the
first preprint author rotated to the end. -/
def is_author_correct (authors_preprint : String) (authors_pubmed : List String) : Bool :=
  if authors_pubmed.isEmpty then false
  else
    let pre := splitOnStr "; " authors_preprint
    if 3 < ((pre.length : Int) - (authors_pubmed.length : Int)).natAbs then false
    else if (perform_checks pre authors_pubmed).any id then true
    else if is_first_and_last_author_present pre authors_pubmed then true
    else
      let pre2 := move_first_author_to_last pre
      if (perform_checks pre2 authors_pubmed).any id then true
      else if is_first_and_last_author_present pre2 authors_pubmed then true
      else false

end AuthorSimilarity

/-! ## `check_pubmed` (`utils/search.py` lines 76-169)

External effects are oracles: `entrez` models `Entrez.esearch` (the body of
`esearch_pmids`), `fetchRecs` models `_entrez_fetch` + `Medline.parse`, and
`simO` models `BioBertSimilarity.calculate_similarity sbert_model` with
exact rational scores.  `Except.error ()` on an oracle models the raised
connection error.  The overall return type `Except PyErr CheckResult`
separates a normal Python return (`Except.ok`) from an uncaught exception
propagating out of `check_pubmed` (`Except.error`). -/

/-- A fetched Medline record's tagged fields, as accessed by the source
(`Bio.Medline` exposes `TI`, `AB`, `EDAT`, `PD`, `PMID` as strings and
`AU`, `AID` as lists; any of them may be absent). -/
structure Article where
  EDAT : Option String
  PD : Option String
  TI : Option String
  AU : Option (List String)
  AB : Option String
  AID : Option (List String)
  PMID : Option String
deriving DecidableEq, Repr

/-- One entry of the `records` list built on lines 111-113: the searched
pmid, the fetched article, and the scoring fields initialised with
`float()` = `0.0` (the falsy `author_check` initial value is modelled as
`false`; the source later stores the boolean result of
`is_author_correct` in it and only ever uses it as a truth value). -/
structure RecEntry where
  pmid : String
  article : Article
  author_check : Bool
  title_check : ℚ
  abstract_similarity : ℚ
deriving DecidableEq, Repr

/-- The Python values `check_pubmed` can return: a string (a resolved URL
or the connection-error message), the raw article-identifier list
(line 162), or the Python literal `False` (the no-match outcome). -/
inductive CheckResult
  | str (s : String)
  | ids (l : List String)
  | noMatch
deriving DecidableEq, Repr

/-- Python exception classes distinguished by the source's handlers. -/
inductive PyErr
  | keyError
  | otherError
deriving DecidableEq, Repr

/-- The input dict `preprint` (built in `main.py`; all four keys always
present there). -/
structure Preprint where
  title : String
  abstract : String
  date : String
  authors : String
deriving DecidableEq, Repr

/-- Stop-word removal used on titles (lines 86-87 and 131):
`" ".join([w for w in s.split() if not w in stop_words_l])`. -/
def clean_title (stop : List String) (s : String) : String :=
  String.mk (List.intercalate [' ']
    ((wordsL s.toList).filter (fun w => !(stop.map String.toList).contains w)))

/-- The author query built on line 99:
`authors.replace(";", " AND").replace(",", "").replace(".", "") + "[author]"`. -/
def author_query (authors : String) : String :=
  replStr "." "" (replStr "," "" (replStr ";" " AND" authors)) ++ "[author]"

/-- `esearch_pmids` (lines 9-28): delegates to the Entrez oracle after
appending the journal-article filter to the query. -/
def esearch_pmids (entrez : String → Except Unit (List String)) (query : String) :
    Except Unit (List String) :=
  entrez (query ++ " AND Journal Article[filter]")

/-- One pass of the date-filter list comprehension
`[r for r in records if date_preprint < convert_date(r["article"][fld])]`:
elements are processed left to right; a missing field raises `KeyError`,
a malformed date raises a non-`KeyError` exception, and either aborts the
whole comprehension at the first offending element. -/
def tryFilter (fld : RecEntry → Option String) (dp : PyDate) :
    List RecEntry → Except PyErr (List RecEntry)
  | [] => .ok []
  | r :: rs =>
    match fld r with
    | none => .error .keyError
    | some s =>
      match convert_date s with
      | none => .error .otherError
      | some d =>
        match tryFilter fld dp rs with
        | .error e => .error e
        | .ok tl => .ok (if dateLt dp d then r :: tl else tl)

/-- The date-filter block (lines 117-123): try the `EDAT` pass; on
`KeyError` fall back to a `PD` pass whose bare `except` retains the
original list; any non-`KeyError` exception from the `EDAT` pass is
uncaught and propagates. -/
def filterDates (dp : PyDate) (records : List RecEntry) : Except PyErr (List RecEntry) :=
  match tryFilter (fun r => r.article.EDAT) dp records with
  | .ok rs => .ok rs
  | .error .keyError =>
    match tryFilter (fun r => r.article.PD) dp records with
    | .ok rs => .ok rs
    | .error _ => .ok records
  | .error .otherError => .error .otherError

/-- Title-check scoring loop (lines 128-133, `author_search` branch). -/
def score_titles (simO : String → String → ℚ) (stop : List String)
    (title_preprint : String) (records : List RecEntry) : List RecEntry :=
  records.map fun r =>
    match r.article.TI with
    | some t => { r with title_check := simO title_preprint (clean_title stop t) }
    | none => r

/-- Author-check scoring loop (lines 136-142). -/
def score_authors (authors_preprint : String) (records : List RecEntry) : List RecEntry :=
  records.map fun r =>
    match r.article.AU with
    | some aus =>
      { r with author_check := AuthorSimilarity.is_author_correct authors_preprint aus }
    | none => r

/-- The author-or-title gate of line 144:
`entry["author_check"] or entry["title_check"] > 0.94`. -/
def gate (r : RecEntry) : Bool :=
  r.author_check || decide (r.title_check > rat094)

/-- Abstract-similarity scoring loop (lines 143-149): only gated-in
candidates with an `AB` field are scored. -/
def score_abstracts (simO : String → String → ℚ) (preprint_abstract : String)
    (records : List RecEntry) : List RecEntry :=
  records.map fun r =>
    if gate r then
      match r.article.AB with
      | some ab => { r with abstract_similarity := simO preprint_abstract ab }
      | none => r
    else r

/-- Python `max(records, key=lambda m: m["abstract_similarity"])`: the
first element of maximal score (later elements replace the current best
only on a strictly greater key; defined on non-empty lists, as at the
guarded call site). -/
def select_max (records : List RecEntry) : RecEntry :=
  match records with
  | [] => { pmid := "", article := ⟨none, none, none, none, none, none, none⟩,
            author_check := false, title_check := 0, abstract_similarity := 0 }
  | r :: rest =>
    rest.foldl (fun b x => if x.abstract_similarity > b.abstract_similarity then x else b) r

/-- The DOI-extraction loop of lines 156-162: first identifier containing
the substring `"doi"`, with all occurrences of `" [doi]"` removed. -/
def findDoi : List String → Option String
  | [] => none
  | x :: xs => if containsStr x "doi" then some (replStr " [doi]" "" x) else findDoi xs

/-- Lines 150-169: select the maximal candidate, apply the `>= 0.9`
acceptance threshold, extract a locator.  An empty `AID` list leaves
`published_info` unbound so the `'published_info' in locals()` check on
line 166 yields `False`; an absent `AID` falls back to the `PMID` URL
(uncaught `KeyError` if `PMID` is also absent); a below-threshold maximum
likewise leaves `published_info` unbound. -/
def finalize (records : List RecEntry) : Except PyErr CheckResult :=
  match records with
  | [] => .ok .noMatch
  | r :: rest =>
    let found := select_max (r :: rest)
    if found.abstract_similarity ≥ rat09 then
      match found.article.AID with
      | some aid =>
        match aid with
        | [] => .ok .noMatch
        | _ :: _ =>
          match findDoi aid with
          | some doi => .ok (.str ("https://doi.org/" ++ doi))
          | none => .ok (.ids aid)
      | none =>
        match found.article.PMID with
        | some p => .ok (.str ("https://pubmed.ncbi.nlm.nih.gov/" ++ p))
        | none => .error .keyError
    else .ok .noMatch

/-- The connection-error message returned on lines 91 and 103. -/
def apiErrorMsg : String := "API connection error. Please try again later."

/-- `check_pubmed` (lines 76-169).  `entrez` is the `Entrez.esearch`
oracle, `fetchRecs` the `_entrez_fetch` oracle, `simO` the embedding-model
similarity oracle, `stop` the NLTK English stop-word list. -/
def check_pubmed (entrez : String → Except Unit (List String))
    (fetchRecs : List String → Except Unit (List Article))
    (simO : String → String → ℚ) (stop : List String)
    (preprint : Preprint) : Except PyErr CheckResult :=
  let title_preprint := clean_title stop preprint.title
  match esearch_pmids entrez title_preprint with
  | .error _ => .ok (.str apiErrorMsg)
  | .ok pubmed0 =>
    let searched : Bool × Except Unit (List String) :=
      if pubmed0.isEmpty then
        (true, esearch_pmids entrez (author_query preprint.authors))
      else (false, .ok pubmed0)
    let author_search := searched.1
    match searched.2 with
    | .error _ => .ok (.str apiErrorMsg)
    | .ok pubmed =>
      if pubmed.isEmpty then .ok .noMatch
      else
        match fetchRecs pubmed with
        | .error _ => .ok .noMatch
        | .ok articles =>
          let records := List.zipWith
            (fun pmid article =>
              { pmid := pmid, article := article, author_check := false,
                title_check := 0, abstract_similarity := 0 : RecEntry })
            pubmed articles
          match convert_date preprint.date with
          | none => .error .otherError
          | some date_preprint =>
            match filterDates date_preprint records with
            | .error e => .error e
            | .ok records =>
              let records :=
                if author_search then
                  score_titles simO stop title_preprint records
                else
                  score_authors preprint.authors records
              let records := score_abstracts simO preprint.abstract records
              finalize records

/-! ## Text Similarity Service (`utils/similarity.py`, class
`BioBertSimilarity`)

Embedded over exact reals: the sentence-transformer `encode` call is an
oracle producing a vector in `Fin n → ℝ`, `cosine_similarity` is the exact
cosine (with the zero-vector rows mapping to score `0`, as scikit-learn's
safe normalization produces), and `most_similar` is specialised to the
two-document matrix `calculate_similarity` always builds. -/

namespace BioBertSimilarity

/-- Per-string half of `_prepare_strings_for_similarity_comparison`:
lower-case, then strip one trailing `'.'`. -/
def prepStr (s : String) : String :=
  let l := lowerL s.toList
  String.mk (if l.getLast? = some '.' then l.dropLast else l)

/-- `re.sub(r'[^a-zA-Z]', ' ', w)`: every non-ASCII-letter character
becomes a space. -/
def subNonAlpha (w : List Char) : List Char :=
  w.map (fun c => if c.isAlpha then c else ' ')

/-- The `documents_cleaned` computation (lines 49-51): for each
whitespace-word, substitute non-letters by spaces and lower-case; keep the
transformed word if it is not a stop word; join with single spaces. -/
def cleanDoc (stop : List String) (s : String) : String :=
  String.mk (List.intercalate [' ']
    (((wordsL s.toList).map (fun w => lowerL (subNonAlpha w))).filter
      (fun w => !(stop.map String.toList).contains w)))

/-- Dot product on `Fin n → ℝ`. -/
def dotp {n : ℕ} (u v : Fin n → ℝ) : ℝ := ∑ i, u i * v i

/-- Exact cosine similarity; `0/0 = 0` in Lean's reals reproduces
scikit-learn's score `0` for a zero embedding vector. -/
noncomputable def cosSim {n : ℕ} (u v : Fin n → ℝ) : ℝ :=
  dotp u v / (Real.sqrt (dotp u u) * Real.sqrt (dotp v v))

/-- `most_similar(0, M, 'Cosine Similarity')` on the 2×2 matrix built from
`documents = [str1, str2]`, whose relevant row is `[m00, m01]`.
`np.argsort` (ascending, stable) of that row is `[1, 0]` if `m01 < m00`
and `[0, 1]` otherwise; reversed by `[::-1]`; the `for` loop's `continue`
has no effect, so after the loop `ix` is the *last* visited index — the
index of the row minimum — and the returned entry is the smaller of the
two row values. -/
noncomputable def most_similar_two (m00 m01 : ℝ) : ℝ :=
  if m01 < m00 then m01 else m00

/-- The pretrained sentence-embedding model, as an opaque encoder. -/
structure SbertModel (n : ℕ) where
  encode : String → (Fin n → ℝ)

/-- `calculate_similarity` (lines 41-54): prepare both strings, clean
both documents, encode, and read the similarity off the pairwise cosine
matrix via `most_similar`. -/
noncomputable def calculate_similarity (stop : List String) {n : ℕ}
    (m : SbertModel n) (str1 str2 : String) : ℝ :=
  let s1 := prepStr str1
  let s2 := prepStr str2
  let e1 := m.encode (cleanDoc stop s1)
  let e2 := m.encode (cleanDoc stop s2)
  most_similar_two (cosSim e1 e1) (cosSim e1 e2)

theorem dotp_comm {n : ℕ} (u v : Fin n → ℝ) : dotp u v = dotp v u := by
  unfold dotp
  exact Finset.sum_congr rfl fun i _ => mul_comm _ _

theorem dotp_self_nonneg {n : ℕ} (u : Fin n → ℝ) : 0 ≤ dotp u u :=
  Finset.sum_nonneg fun i _ => mul_self_nonneg (u i)

theorem dotp_self_pos {n : ℕ} (u : Fin n → ℝ) (h : u ≠ 0) : 0 < dotp u u := by
  obtain ⟨i, hi⟩ : ∃ i, u i ≠ 0 := by
    by_contra hall
    push_neg at hall
    exact h (funext hall)
  exact Finset.sum_pos' (fun j _ => mul_self_nonneg (u j))
    ⟨i, Finset.mem_univ i, mul_self_pos.mpr hi⟩

theorem dotp_zero_left {n : ℕ} (v : Fin n → ℝ) : dotp 0 v = 0 := by
  unfold dotp
  simp

theorem cosSim_comm {n : ℕ} (u v : Fin n → ℝ) : cosSim u v = cosSim v u := by
  unfold cosSim
  rw [dotp_comm u v, mul_comm]

theorem cosSim_self {n : ℕ} (u : Fin n → ℝ) (h : u ≠ 0) : cosSim u u = 1 := by
  unfold cosSim
  rw [Real.mul_self_sqrt (dotp_self_nonneg u)]
  exact div_self (ne_of_gt (dotp_self_pos u h))

theorem cosSim_zero_left {n : ℕ} (v : Fin n → ℝ) : cosSim 0 v = 0 := by
  unfold cosSim
  rw [dotp_zero_left]
  exact zero_div _

theorem cosSim_zero_right {n : ℕ} (u : Fin n → ℝ) : cosSim u 0 = 0 := by
  rw [cosSim_comm]
  exact cosSim_zero_left u

end BioBertSimilarity

/-! ## Shared helper lemmas and concrete fixtures -/

/-- A preprint author name whose normalized form `apre` is empty passes
the `apub.startswith(apre)` test against every PubMed name. -/
theorem is_author_the_same_of_apre_empty (a b : String)
    (h : AuthorSimilarity.apreOf a = "") :
    AuthorSimilarity.is_author_the_same a b = true := by
  unfold AuthorSimilarity.is_author_the_same
  rw [h]
  have h2 : startsW (AuthorSimilarity.apubOf b) "" = true := by
    unfold startsW
    rw [show ("" : String).toList = [] from rfl]
    exact List.isPrefixOf_nil_left
  cases h1 : startsW "" (AuthorSimilarity.apubOf b)
  · simp [h1, h2]
  · simp [h1]

/-- The first-of-maximal fold underlying `select_max` returns its seed or
a list element. -/
theorem foldl_best_mem (rest : List RecEntry) : ∀ b : RecEntry,
    rest.foldl (fun b x => if x.abstract_similarity > b.abstract_similarity then x else b) b
        = b ∨
    rest.foldl (fun b x => if x.abstract_similarity > b.abstract_similarity then x else b) b
        ∈ rest := by
  induction rest with
  | nil => intro b; left; rfl
  | cons x xs ih =>
    intro b
    simp only [List.foldl_cons]
    rcases ih (if x.abstract_similarity > b.abstract_similarity then x else b) with h | h
    · rw [h]
      by_cases hc : x.abstract_similarity > b.abstract_similarity
      · right; rw [if_pos hc]; exact List.mem_cons_self x xs
      · left; rw [if_neg hc]
    · right; exact List.mem_cons_of_mem x h

/-- `max(records, key=...)` returns an element of a non-empty list. -/
theorem select_max_mem (records : List RecEntry) (h : records ≠ []) :
    select_max records ∈ records := by
  cases records with
  | nil => exact absurd rfl h
  | cons r rest =>
    show rest.foldl (fun b x => if x.abstract_similarity > b.abstract_similarity then x else b) r
        ∈ r :: rest
    rcases foldl_best_mem rest r with h1 | h1
    · rw [h1]; exact List.mem_cons_self r rest
    · exact List.mem_cons_of_mem r h1

/-- A below-threshold maximum similarity always yields the Python `False`
(no-match) return. -/
theorem finalize_noMatch_of_lt (records : List RecEntry) (h : records ≠ [])
    (hlt : (select_max records).abstract_similarity < rat09) :
    finalize records = .ok CheckResult.noMatch := by
  cases records with
  | nil => exact absurd rfl h
  | cons r rest =>
    show (if (select_max (r :: rest)).abstract_similarity ≥ rat09 then _ else
        Except.ok CheckResult.noMatch) = Except.ok CheckResult.noMatch
    rw [if_neg (not_le.mpr hlt)]

/-- A Medline record with every field the orchestration touches. -/
def artStd : Article :=
  { EDAT := some "2021/05/05", PD := none, TI := some "t", AU := some ["x"],
    AB := some "abs", AID := some ["999 [pii]"], PMID := some "1" }

/-- A record whose `EDAT` is present but parses under neither delimiter
convention. -/
def artBadDate : Article := { artStd with EDAT := some "garbage" }

/-- A concrete preprint input. -/
def preStd : Preprint := { title := "t", abstract := "a", date := "2020-01-01", authors := "x" }

/-- A search oracle that always succeeds with one pmid. -/
def entrezOk : String → Except Unit (List String) := fun _ => .ok ["1"]

/-- A similarity oracle pinning every comparison at score 1. -/
def simOne : String → String → ℚ := fun _ _ => 1

/-- Candidate entry with a publication date before the preprint's. -/
def recOld : RecEntry :=
  { pmid := "1", article := { artStd with EDAT := some "2019-01-01" },
    author_check := false, title_check := 0, abstract_similarity := 0 }

/-- Candidate entry with neither date field. -/
def recNoDate : RecEntry :=
  { pmid := "2", article := { artStd with EDAT := none, PD := none },
    author_check := false, title_check := 0, abstract_similarity := 0 }

/-- Candidate entry with present-but-malformed `EDAT`. -/
def recBadDate : RecEntry :=
  { pmid := "3", article := artBadDate,
    author_check := false, title_check := 0, abstract_similarity := 0 }

/-- An above-threshold candidate whose identifier list is present but
empty. -/
def recEmptyAid : RecEntry :=
  { pmid := "1", article := { artStd with AID := some [] },
    author_check := true, title_check := 0, abstract_similarity := 1 }

/-- An above-threshold candidate with a non-empty identifier list lacking
any doi-tagged entry. -/
def recAccept : RecEntry :=
  { pmid := "1", article := artStd,
    author_check := true, title_check := 0, abstract_similarity := 1 }

/-- A below-threshold candidate scoring exactly 0.89. -/
def recLow : RecEntry :=
  { pmid := "1", article := artStd,
    author_check := true, title_check := 0, abstract_similarity := rat089 }

/-- A candidate failing the author-or-title gate. -/
def recGatedOut : RecEntry :=
  { pmid := "1", article := artStd,
    author_check := false, title_check := 0, abstract_similarity := 0 }

/-! ## Claim theorems -/

/-- C1 counterexample: the consensus list `[false, false]` has the same
truth value (`false`) at position 0 and position -1, so the claim's
same-truthiness rule predicts `true`; the code returns `false`, because
the Python chained comparison `True is consensus[0] == consensus[-1]`
desugars to `(True is consensus[0]) and (consensus[0] == consensus[-1])`
and requires `consensus[0]` to be `True`. -/
theorem first_last_same_truthiness_counterexample :
    (([false, false].headD false) == ([false, false].getLastD false)) = true ∧
    AuthorSimilarity.is_first_and_last_author_the_same [false, false] = false :=
  ⟨rfl, rfl⟩

/-- C1 amended: on every non-empty pairwise consensus list,
`_is_first_and_last_author_the_same` returns true iff the first AND the
last entries are both true (a both-true check, not a same-truthiness
check). -/
theorem first_last_author_check_is_both_true (c : List Bool) (_hne : c ≠ []) :
    AuthorSimilarity.is_first_and_last_author_the_same c =
      (c.headD false && c.getLastD false) := by
  unfold AuthorSimilarity.is_first_and_last_author_the_same
  cases hh : c.headD false <;> cases hl : c.getLastD false <;> simp

/-- C1 witness: the amended rule evaluated on the concrete consensus
`[true, false]`. -/
theorem first_last_author_check_is_both_true_witness :
    [true, false] ≠ ([] : List Bool) ∧
    AuthorSimilarity.is_first_and_last_author_the_same [true, false] =
      ([true, false].headD false && [true, false].getLastD false) :=
  ⟨by decide, first_last_author_check_is_both_true [true, false] (by decide)⟩

/-- C5 counterexample: the claim says `authors_match([], pubmed_nonempty)`
is always false, but an empty preprint author string splits (on `"; "`)
into `['']`, whose normalized empty name is a prefix of every PubMed name,
so `is_author_correct` returns true against this non-empty PubMed list. -/
theorem empty_preprint_authors_counterexample :
    AuthorSimilarity.is_author_correct "" ["smith john"] = true := by
  rfl

/-- C5 amended: `is_author_correct` returns false whenever the PubMed
author list is empty; but for an empty preprint author string it returns
true against every non-empty PubMed list of at most 4 authors (the
singleton `['']` produced by the split matches any author pairwise, and
the length guard only rejects lists of 5 or more). -/
theorem author_empty_inputs (apre : String) (pubs : List String)
    (hne : pubs ≠ []) (hlen : pubs.length ≤ 4) :
    AuthorSimilarity.is_author_correct apre [] = false ∧
    AuthorSimilarity.is_author_correct "" pubs = true := by
  constructor
  · rfl
  · obtain ⟨p, rest, rfl⟩ := List.exists_cons_of_ne_nil hne
    have hsame : AuthorSimilarity.is_author_the_same "" p = true :=
      is_author_the_same_of_apre_empty "" p rfl
    have hchecks : (AuthorSimilarity.perform_checks [""] (p :: rest)).any id = true := by
      simp [AuthorSimilarity.perform_checks, AuthorSimilarity.authors_consensus,
        AuthorSimilarity.is_consensus_majority, hsame]
    have hsplit : splitOnStr "; " "" = [""] := rfl
    have hguard : ¬ (3 <
        ((([""] : List String).length : Int) - (((p :: rest).length : Int))).natAbs) := by
      simp only [List.length_cons, List.length_nil] at hlen ⊢
      omega
    unfold AuthorSimilarity.is_author_correct
    simp only [List.isEmpty_cons, Bool.false_eq_true, if_false, hsplit, if_neg hguard,
      hchecks, if_true]

/-- C5 witness: the amended statement evaluated at the concrete inputs
`("zz", [])` and `("", ["smith john"])`. -/
theorem author_empty_inputs_witness :
    AuthorSimilarity.is_author_correct "zz" [] = false ∧
    AuthorSimilarity.is_author_correct "" ["smith john"] = true :=
  author_empty_inputs "zz" ["smith john"] (by decide) (by decide)

/-- C10: whenever the preprint author name normalizes to the empty string
(e.g. the `''` entry obtained by splitting an empty author string),
`_is_author_the_same` accepts every PubMed author, because the
`apub.startswith(apre)` test is vacuously true for an empty `apre`. -/
theorem empty_normalized_author_matches_every_pubmed_author (a b : String)
    (h : AuthorSimilarity.apreOf a = "") :
    AuthorSimilarity.is_author_the_same a b = true :=
  is_author_the_same_of_apre_empty a b h

/-- C10 witness: the empty preprint author name against a concrete PubMed
author. -/
theorem empty_normalized_author_matches_every_pubmed_author_witness :
    AuthorSimilarity.apreOf "" = "" ∧
    AuthorSimilarity.is_author_the_same "" "Smith John" = true :=
  ⟨rfl, empty_normalized_author_matches_every_pubmed_author "" "Smith John" rfl⟩

/-- C2 counterexample: when the record fetch (`_entrez_fetch`) fails, the
`except: return False` on lines 109-110 makes `check_pubmed` return the
Python literal `False` — exactly the value of the no-match outcome, not a
distinguishable "temporarily unavailable" sentinel. -/
theorem fetch_failure_collapses_to_no_match_counterexample :
    check_pubmed entrezOk (fun _ => .error ()) simOne [] preStd =
      .ok CheckResult.noMatch := by
  rfl

/-- C2 amended: a connectivity failure of either *search* call returns
the distinct "API connection error. Please try again later." string, but
a failure of the record *fetch* returns `False`, the same value as the
no-match outcome. -/
theorem connectivity_failure_outcomes
    (entrez : String → Except Unit (List String))
    (fetchRecs : List String → Except Unit (List Article))
    (simO : String → String → ℚ) (stop : List String) (p : Preprint)
    (pm : List String) :
    (esearch_pmids entrez (clean_title stop p.title) = .error () →
      check_pubmed entrez fetchRecs simO stop p = .ok (.str apiErrorMsg)) ∧
    (esearch_pmids entrez (clean_title stop p.title) = .ok [] →
      esearch_pmids entrez (author_query p.authors) = .error () →
      check_pubmed entrez fetchRecs simO stop p = .ok (.str apiErrorMsg)) ∧
    (esearch_pmids entrez (clean_title stop p.title) = .ok pm → pm ≠ [] →
      fetchRecs pm = .error () →
      check_pubmed entrez fetchRecs simO stop p = .ok CheckResult.noMatch) := by
  refine ⟨fun h1 => ?_, fun h1 h2 => ?_, fun h1 hne h3 => ?_⟩
  · simp only [check_pubmed, h1]
  · simp only [check_pubmed, h1, h2, List.isEmpty_nil, if_true]
  · have hpm : pm.isEmpty = false := by
      cases pm with
      | nil => exact absurd rfl hne
      | cons a l => rfl
    simp only [check_pubmed, h1, hpm, Bool.false_eq_true, if_false, h3]

/-- C2 witness: the three amended outcomes at concrete oracles. -/
theorem connectivity_failure_outcomes_witness :
    check_pubmed (fun _ => .error ()) (fun _ => .ok []) simOne [] preStd =
      .ok (.str apiErrorMsg) ∧
    check_pubmed (fun q => if q = "t AND Journal Article[filter]" then .ok [] else .error ())
      (fun _ => .ok []) simOne [] preStd = .ok (.str apiErrorMsg) ∧
    check_pubmed entrezOk (fun _ => .error ()) simOne [] preStd =
      .ok CheckResult.noMatch :=
  ⟨(connectivity_failure_outcomes (fun _ => .error ()) (fun _ => .ok []) simOne []
      preStd []).1 rfl,
   (connectivity_failure_outcomes
      (fun q => if q = "t AND Journal Article[filter]" then .ok [] else .error ())
      (fun _ => .ok []) simOne [] preStd []).2.1 rfl rfl,
   (connectivity_failure_outcomes entrezOk (fun _ => .error ()) simOne [] preStd
      ["1"]).2.2 rfl (by decide) rfl⟩

/-- C3 counterexample: a candidate whose `EDAT` field is present but
parses under neither delimiter convention makes the date-filter list
comprehension raise a non-`KeyError` exception, which the
`except KeyError` handler does not catch — `check_pubmed` aborts instead
of retaining the candidate. -/
theorem malformed_date_aborts_counterexample :
    check_pubmed entrezOk (fun _ => .ok [artBadDate]) simOne [] preStd =
      .error PyErr.otherError := by
  rfl

/-- C3 amended: a candidate with a present but malformed `EDAT` aborts
the whole resolution with an uncaught exception (rather than being
excluded from date filtering); candidates with *missing* date fields are
not excluded individually either — when every candidate lacks both date
fields the fallback retains the entire list wholesale. -/
theorem malformed_and_missing_dates (dp : PyDate) (r : RecEntry) (s : String)
    (records : List RecEntry)
    (hE : r.article.EDAT = some s) (hbad : convert_date s = none)
    (hmiss : ∀ q ∈ records, q.article.EDAT = none ∧ q.article.PD = none) :
    filterDates dp [r] = .error PyErr.otherError ∧
    filterDates dp records = .ok records := by
  constructor
  · simp only [filterDates, tryFilter, hE, hbad]
  · cases records with
    | nil => rfl
    | cons q qs =>
      have hq := hmiss q (List.mem_cons_self q qs)
      simp only [filterDates, tryFilter, hq.1, hq.2]

/-- C3 witness: the amended statement at a concrete malformed-`EDAT`
candidate and a concrete dateless candidate list. -/
theorem malformed_and_missing_dates_witness :
    filterDates ⟨2020, 1, 1⟩ [recBadDate] = .error PyErr.otherError ∧
    filterDates ⟨2020, 1, 1⟩ [recNoDate] = .ok [recNoDate] :=
  malformed_and_missing_dates ⟨2020, 1, 1⟩ recBadDate "garbage" [recNoDate]
    rfl rfl (by decide)

/-- C4 counterexample: `recOld` carries a parseable `EDAT`
(`"2019-01-01"`) strictly before the preprint date 2020-01-01 yet is
*retained*: its neighbour `recNoDate` raises `KeyError` during the `EDAT`
comprehension, which abandons the whole pass, and the `PD` fallback fails
too, so the bare `except` keeps the entire original list — candidates are
not filtered individually. -/
theorem date_filter_not_individual_counterexample :
    filterDates ⟨2020, 1, 1⟩ [recOld, recNoDate] = .ok [recOld, recNoDate] ∧
    convert_date "2019-01-01" = some ⟨2019, 1, 1⟩ ∧
    dateLt ⟨2020, 1, 1⟩ ⟨2019, 1, 1⟩ = false :=
  ⟨rfl, rfl, rfl⟩

/-- The filtered-list shape of one date-filter pass when every candidate
has a parseable `EDAT`. -/
theorem tryFilter_all_parseable (dp : PyDate) (records : List RecEntry)
    (hall : ∀ r ∈ records, (r.article.EDAT.bind convert_date).isSome) :
    tryFilter (fun r => r.article.EDAT) dp records =
      .ok (records.filter fun r =>
        match r.article.EDAT.bind convert_date with
        | some d => dateLt dp d
        | none => false) := by
  induction records with
  | nil => rfl
  | cons r rs ih =>
    have hr := hall r (List.mem_cons_self r rs)
    cases hE : r.article.EDAT with
    | none => rw [hE] at hr; simp at hr
    | some s =>
      cases hc : convert_date s with
      | none => rw [hE] at hr; simp only [Option.some_bind, hc] at hr; simp at hr
      | some d =>
        have ih' := ih (fun q hq => hall q (List.mem_cons_of_mem r hq))
        simp only [tryFilter, hE, hc, ih', List.filter_cons, Option.some_bind]

/-- C4 amended: the date filter works list-at-a-time, not per candidate:
when *every* candidate has a parseable `EDAT`, candidates not strictly
newer than the preprint are excluded individually; but as soon as the
`EDAT` pass raises `KeyError` and the `PD` pass also raises, the entire
original list — including candidates with parseable dates before the
preprint — is retained. -/
theorem date_filter_wholesale (dp : PyDate) (records : List RecEntry) (e : PyErr) :
    ((∀ r ∈ records, (r.article.EDAT.bind convert_date).isSome) →
      filterDates dp records =
        .ok (records.filter fun r =>
          match r.article.EDAT.bind convert_date with
          | some d => dateLt dp d
          | none => false)) ∧
    (tryFilter (fun r => r.article.EDAT) dp records = .error PyErr.keyError →
      tryFilter (fun r => r.article.PD) dp records = .error e →
      filterDates dp records = .ok records) := by
  constructor
  · intro hall
    unfold filterDates
    rw [tryFilter_all_parseable dp records hall]
  · intro hk hp
    unfold filterDates
    rw [hk, hp]

/-- Observable shape of an outcome: true iff the returned Python value is
a string (a URL or a message). -/
def isStrOutcome : Except PyErr CheckResult → Bool
  | .ok (.str _) => true
  | _ => false

/-- Modelled from the amended C6 claim: the locator actually produced for
a candidate that crossed the acceptance threshold, by cases on its
article-identifier list. -/
def accept_outcome (found : RecEntry) : Except PyErr CheckResult :=
  match found.article.AID with
  | some [] => .ok .noMatch
  | some (x :: xs) =>
    match findDoi (x :: xs) with
    | some doi => .ok (.str ("https://doi.org/" ++ doi))
    | none => .ok (.ids (x :: xs))
  | none =>
    match found.article.PMID with
    | some p => .ok (.str ("https://pubmed.ncbi.nlm.nih.gov/" ++ p))
    | none => .error .keyError

/-- Above the threshold, `finalize` produces exactly the case table of
`accept_outcome` applied to the selected maximal candidate. -/
theorem finalize_accept_eq (records : List RecEntry) (hne : records ≠ [])
    (h09 : (select_max records).abstract_similarity ≥ rat09) :
    finalize records = accept_outcome (select_max records) := by
  cases records with
  | nil => exact absurd rfl hne
  | cons r rest =>
    show (if (select_max (r :: rest)).abstract_similarity ≥ rat09 then _ else _) = _
    rw [if_pos h09]
    unfold accept_outcome
    cases hA : (select_max (r :: rest)).article.AID with
    | none => rfl
    | some aid => cases aid with
      | nil => rfl
      | cons x xs => rfl

/-- C4 witness: both amended behaviours at concrete candidate lists. -/
theorem date_filter_wholesale_witness :
    filterDates ⟨2020, 1, 1⟩ [recOld] =
      .ok ([recOld].filter fun r =>
        match r.article.EDAT.bind convert_date with
        | some d => dateLt ⟨2020, 1, 1⟩ d
        | none => false) ∧
    filterDates ⟨2020, 1, 1⟩ [recOld, recNoDate] = .ok [recOld, recNoDate] :=
  ⟨(date_filter_wholesale ⟨2020, 1, 1⟩ [recOld] PyErr.keyError).1 (by decide),
   (date_filter_wholesale ⟨2020, 1, 1⟩ [recOld, recNoDate] PyErr.keyError).2 rfl rfl⟩

/-- C6 counterexample: an accepted candidate (similarity 1 ≥ 0.9) whose
`AID` list is present but holds no doi-tagged identifier makes
`check_pubmed` return the raw identifier *list* (`published_info =
found_via_algorithm`, line 162) — neither a DOI-embedding URL nor the
pmid fallback URL, which is only reached when the `AID` key is absent. -/
theorem accepted_nonurl_counterexample :
    check_pubmed entrezOk (fun _ => .ok [artStd]) simOne [] preStd =
      .ok (CheckResult.ids ["999 [pii]"]) ∧
    isStrOutcome (.ok (CheckResult.ids ["999 [pii]"])) = false :=
  ⟨rfl, rfl⟩

/-- C6 amended: the locator returned for an accepted candidate is: the
URL embedding the first doi-tagged identifier when the `AID` list has
one; the raw `AID` list itself when the list is non-empty but has no
doi-tagged entry; the Python `False` (no-match value) when the `AID` list
is present but empty; and the pmid fallback URL only when the `AID` key
is absent (an uncaught `KeyError` if `PMID` is absent too). -/
theorem accepted_locator_characterization (records : List RecEntry)
    (hne : records ≠ []) (h09 : (select_max records).abstract_similarity ≥ rat09) :
    finalize records = accept_outcome (select_max records) :=
  finalize_accept_eq records hne h09

/-- C6 witness: the amended case table evaluated on a concrete
above-threshold candidate list. -/
theorem accepted_locator_characterization_witness :
    finalize [recAccept] = accept_outcome (select_max [recAccept]) :=
  accepted_locator_characterization [recAccept] (by decide) (by decide)

/-- C7 counterexample: a candidate list whose maximal abstract similarity
is 1 ≥ 0.9 — so the claim says a candidate is accepted — yet the
present-but-empty `AID` list leaves `published_info` unbound and
`check_pubmed`'s final `locals()` test returns the no-match `False`. -/
theorem threshold_acceptance_counterexample :
    ((select_max [recEmptyAid]).abstract_similarity ≥ rat09) ∧
    finalize [recEmptyAid] = .ok CheckResult.noMatch :=
  ⟨by decide, rfl⟩

/-- C7 amended: a maximum strictly below 0.9 always yields the no-match
outcome; a maximum ≥ 0.9 enters the acceptance branch and yields a
non-no-match, non-raising outcome *except* when the selected candidate's
`AID` list is present and empty (no-match `False`) or both `AID` and
`PMID` are absent (uncaught `KeyError`). -/
theorem acceptance_threshold (records : List RecEntry) (hne : records ≠ []) :
    ((select_max records).abstract_similarity < rat09 →
      finalize records = .ok CheckResult.noMatch) ∧
    ((select_max records).abstract_similarity ≥ rat09 →
      (select_max records).article.AID ≠ some [] →
      ¬((select_max records).article.AID = none ∧
        (select_max records).article.PMID = none) →
      finalize records ≠ .ok CheckResult.noMatch ∧
      finalize records ≠ .error PyErr.keyError ∧
      finalize records ≠ .error PyErr.otherError) := by
  constructor
  · intro hlt
    exact finalize_noMatch_of_lt records hne hlt
  · intro h09 h2 h3
    rw [finalize_accept_eq records hne h09]
    unfold accept_outcome
    cases hA : (select_max records).article.AID with
    | none =>
      cases hP : (select_max records).article.PMID with
      | none => exact absurd ⟨hA, hP⟩ h3
      | some pS => exact ⟨by simp, by simp, by simp⟩
    | some aid =>
      cases aid with
      | nil => exact absurd hA h2
      | cons x xs =>
        cases hF : findDoi (x :: xs) with
        | none => exact ⟨by simp [hF], by simp [hF], by simp [hF]⟩
        | some doi => exact ⟨by simp [hF], by simp [hF], by simp [hF]⟩

/-- C7 witness: both amended directions at concrete candidate lists —
a maximum of exactly 0.89 is rejected, a maximum of 1 with a non-empty
identifier list is accepted. -/
theorem acceptance_threshold_witness :
    finalize [recLow] = .ok CheckResult.noMatch ∧
    (finalize [recAccept] ≠ .ok CheckResult.noMatch ∧
     finalize [recAccept] ≠ .error PyErr.keyError ∧
     finalize [recAccept] ≠ .error PyErr.otherError) :=
  ⟨(acceptance_threshold [recLow] (by decide)).1 (by decide),
   (acceptance_threshold [recAccept] (by decide)).2 (by decide) (by decide) (by decide)⟩

/-- C8 counterexample: a candidate that failed the author-or-title gate
keeps the sentinel 0.0, yet it *is* selected by the final max-similarity
choice when every candidate is unscored — the claim's "never selected" is
too strong (it is still never accepted). -/
theorem unscored_selected_counterexample :
    gate recGatedOut = false ∧
    select_max (score_abstracts simOne "a" [recGatedOut]) = recGatedOut :=
  ⟨rfl, rfl⟩

/-- C8 amended: candidates failing the author-or-title gate keep the
sentinel `abstract_similarity = 0.0` through the abstract-scoring pass,
and are therefore never *accepted*: whenever the max-similarity choice
falls on a gated-out candidate, the resolution ends in the no-match
outcome (they can, however, be selected by the max when no candidate
scores higher). -/
theorem unscored_keep_sentinel (simO : String → String → ℚ) (pabs : String)
    (records : List RecEntry) (h0 : ∀ r ∈ records, r.abstract_similarity = 0) :
    (∀ r ∈ score_abstracts simO pabs records,
      gate r = false → r.abstract_similarity = 0) ∧
    (score_abstracts simO pabs records ≠ [] →
      gate (select_max (score_abstracts simO pabs records)) = false →
      finalize (score_abstracts simO pabs records) = .ok CheckResult.noMatch) := by
  have key : ∀ r ∈ score_abstracts simO pabs records,
      gate r = false → r.abstract_similarity = 0 := by
    intro r' hr' hg
    obtain ⟨r, hr, hEq⟩ := List.mem_map.mp hr'
    by_cases hgr : gate r = true
    · exfalso
      have hgr' : gate r' = true := by
        rw [← hEq]
        show gate (if gate r then _ else r) = true
        rw [if_pos hgr]
        cases hAB : r.article.AB with
        | none => exact hgr
        | some ab => exact hgr
      rw [hgr'] at hg
      exact Bool.noConfusion hg
    · have hid : r' = r := by
        rw [← hEq]
        show (if gate r then _ else r) = r
        rw [if_neg hgr]
      rw [hid]
      exact h0 r hr
  refine ⟨key, fun hne hg => ?_⟩
  have hmem := select_max_mem _ hne
  have hz := key _ hmem hg
  refine finalize_noMatch_of_lt _ hne ?_
  rw [hz]
  decide

/-- C8 witness: a single gated-out candidate is the max-choice yet the
resolution ends in no-match. -/
theorem unscored_keep_sentinel_witness :
    finalize (score_abstracts simOne "a" [recGatedOut]) = .ok CheckResult.noMatch :=
  (unscored_keep_sentinel simOne "a" [recGatedOut] (by decide)).2
    (by decide) (by decide)

/-- C9: `calculate_similarity` is symmetric in its two text arguments for
every encoder, stop-word list and pair of texts; and the self-similarity
`calculate_similarity(model, a, a)` is exactly 1 whenever the encoder
embeds the cleaned text to a non-zero vector (the standing property of a
sentence-embedding model; a zero embedding gives cosine score 0). -/
theorem calculate_similarity_symm_self (stop : List String) {n : ℕ}
    (m : BioBertSimilarity.SbertModel n) (a b : String) :
    BioBertSimilarity.calculate_similarity stop m a b =
      BioBertSimilarity.calculate_similarity stop m b a ∧
    (m.encode (BioBertSimilarity.cleanDoc stop (BioBertSimilarity.prepStr a)) ≠ 0 →
      BioBertSimilarity.calculate_similarity stop m a a = 1) := by
  constructor
  · unfold BioBertSimilarity.calculate_similarity
    dsimp only
    set e1 := m.encode (BioBertSimilarity.cleanDoc stop (BioBertSimilarity.prepStr a)) with he1
    set e2 := m.encode (BioBertSimilarity.cleanDoc stop (BioBertSimilarity.prepStr b)) with he2
    by_cases h1 : e1 = 0 <;> by_cases h2 : e2 = 0
    · rw [h1, h2]
    · rw [h1]
      unfold BioBertSimilarity.most_similar_two
      rw [BioBertSimilarity.cosSim_zero_left, BioBertSimilarity.cosSim_zero_left,
        BioBertSimilarity.cosSim_zero_right, BioBertSimilarity.cosSim_self e2 h2]
      norm_num
    · rw [h2]
      unfold BioBertSimilarity.most_similar_two
      rw [BioBertSimilarity.cosSim_zero_left, BioBertSimilarity.cosSim_zero_right,
        BioBertSimilarity.cosSim_zero_left, BioBertSimilarity.cosSim_self e1 h1]
      norm_num
    · unfold BioBertSimilarity.most_similar_two
      rw [BioBertSimilarity.cosSim_self e1 h1, BioBertSimilarity.cosSim_self e2 h2,
        BioBertSimilarity.cosSim_comm e2 e1]
  · intro hnz
    unfold BioBertSimilarity.calculate_similarity
    unfold BioBertSimilarity.most_similar_two
    rw [if_neg (lt_irrefl _)]
    exact BioBertSimilarity.cosSim_self _ hnz

/-- A concrete one-dimensional constant encoder. -/
def unitModel : BioBertSimilarity.SbertModel 1 := ⟨fun _ => fun _ => 1⟩

/-- C9 witness: symmetry and self-similarity 1 at a concrete encoder and
concrete texts. -/
theorem calculate_similarity_symm_self_witness :
    BioBertSimilarity.calculate_similarity [] unitModel "ab" "cd" =
      BioBertSimilarity.calculate_similarity [] unitModel "cd" "ab" ∧
    BioBertSimilarity.calculate_similarity [] unitModel "ab" "ab" = 1 :=
  ⟨(calculate_similarity_symm_self [] unitModel "ab" "cd").1,
   (calculate_similarity_symm_self [] unitModel "ab" "cd").2
     (fun hz => one_ne_zero (congrFun hz 0))⟩

end Pre2Pub
